import Mathlib

/-!
Verification of the genologics client core (entities.py, descriptors.py, lims.py).

The development shallowly embeds the Python source:
* Python values handled by the UDF dictionary become the inductive `PyVal`
  (Python floats are binary64; they are carried by their `repr` text, see `PyVal.vFloat`).
* XML element trees (`xml.etree.ElementTree`) become the inductive `Elem`.
* In-place object mutation becomes explicit state passing; a raised Python
  exception becomes an `Except String` error carrying the exception's message.
* HTTP traffic through `requests` is modelled by a pure document store
  `String → Elem` plus a log of the URLs handed to the transport layer
  (`none` stands for passing Python `None` instead of a URL string).
-/

set_option autoImplicit false

/-- An association list standing for a Python `dict` (insertion ordered:
updating an existing key keeps its position, a new key is appended, as in
Python 3 dicts and in `xml` attribute dictionaries). -/
def assocGet {α : Type} : List (String × α) → String → Option α
  | [], _ => none
  | (k', v') :: t, k => if k' = k then some v' else assocGet t k

/-- Python dict update `d[k] = v`: replace in place or append. -/
def assocSet {α : Type} : List (String × α) → String → α → List (String × α)
  | [], k, v => [(k, v)]
  | (k', v') :: t, k, v => if k' = k then (k, v) :: t else (k', v') :: assocSet t k v

/-- Python values as they flow through `UdfDictionary`.

`vFloat r` is a Python `float` represented by its shortest `repr` text `r`
(binary64 arithmetic is outside the model; the code under verification never
computes with floats, it only stores them and re-reads `float(text)`, which we
represent by the text itself). `vDate y m d` is a `datetime.date`; the
constructor of `datetime.date` only accepts calendar-valid dates with
`1 <= year <= 9999` (`pyDateValid` below). -/
inductive PyVal where
  | vNone
  | vStr (s : String)
  | vInt (n : Int)
  | vFloat (r : String)
  | vBool (b : Bool)
  | vDate (y m d : Nat)
deriving DecidableEq

/-- Python `isinstance(value, str)` (`_is_string` in descriptors.py). -/
def pyIsStr : PyVal → Bool
  | .vStr _ => true
  | _ => false

/-- Python `isinstance(value, (int, float))`. Python's `bool` is a subclass of `int`,
so a `bool` value passes this check as well. -/
def pyIsIntFloat : PyVal → Bool
  | .vInt _ => true
  | .vFloat _ => true
  | .vBool _ => true
  | _ => false

/-- Python `isinstance(value, bool)`. -/
def pyIsBool : PyVal → Bool
  | .vBool _ => true
  | _ => false

/-- Python `isinstance(value, datetime.date)`. -/
def pyIsDate : PyVal → Bool
  | .vDate _ _ _ => true
  | _ => false

/-- Membership `c in s` for a single character, over the character list (Lean's
byte-position `String` loops do not reduce inside the kernel; the
character-list form is definitionally transparent and equivalent). -/
def strContainsChar (s : String) (c : Char) : Bool :=
  s.data.contains c

/-- Python's `str.lower()` (ASCII case folding suffices for the type tags). -/
def pyLower (s : String) : String :=
  ⟨s.data.map Char.toLower⟩

/-- Python `sep.join(parts)`. -/
def joinWith (sep : String) : List String → String
  | [] => ""
  | [x] => x
  | x :: xs => x ++ sep ++ joinWith sep xs

/-- Decimal digits of `n`, most significant first (the digits Python's
`str(int)` prints), with an explicit recursion bound so the definition is
structural: `natDigits` below always supplies sufficient fuel. -/
def natDigitsAux : Nat → Nat → List Char
  | 0, _ => []
  | fuel + 1, n =>
    if n < 10 then [Nat.digitChar n]
    else natDigitsAux fuel (n / 10) ++ [Nat.digitChar (n % 10)]

/-- Decimal digits of a natural number, most significant first. -/
def natDigits (n : Nat) : List Char := natDigitsAux (n + 1) n

/-- Python's `str` on a non-negative `int`. -/
def pyStrNat (n : Nat) : String := ⟨natDigits n⟩

/-- Python's `str` on an `int` (decimal digits, `-` sign for negatives). -/
def pyStrInt (n : Int) : String :=
  if n < 0 then "-" ++ pyStrNat n.natAbs else pyStrNat n.natAbs

/-- The numeric value of an ASCII digit character, `none` for a non-digit. -/
def charDigit? (c : Char) : Option Nat :=
  if '0' ≤ c ∧ c ≤ '9' then some (c.toNat - 48) else none

/-- Fold a run of digit characters onto an accumulator; fails at the first
non-digit. -/
def parseDigitsAux : List Char → Nat → Option Nat
  | [], acc => some acc
  | c :: cs, acc =>
    match charDigit? c with
    | some dg => parseDigitsAux cs (acc * 10 + dg)
    | none => none

/-- Digits-only string to `Nat`; the empty string is rejected
(as `int("")` raises in Python). -/
def pyParseNatChars (l : List Char) : Option Nat :=
  if l.isEmpty then none else parseDigitsAux l 0

/-- Python's `int(text)` on the texts this code produces: an optional `-`
sign followed by decimal digits (Python also strips whitespace and accepts
`+`/underscores, which never occur here). `none` models the `ValueError`. -/
def pyParseInt (s : String) : Option Int :=
  if s.data.head? = some '-' then
    match pyParseNatChars s.data.tail with
    | some n => some (-(n : Int))
    | none => none
  else
    match pyParseNatChars s.data with
    | some n => some ((n : Int))
    | none => none

/-- Decimal digits of `n` left-padded with zeros to width `w`
(Python's `%0{w}d` used by `str(datetime.date)`). -/
def padDigits (w n : Nat) : List Char :=
  List.replicate (w - (natDigits n).length) '0' ++ natDigits n

/-- Python's `str` on a `datetime.date`: `YYYY-MM-DD` with zero padding. -/
def pyStrDate (y m d : Nat) : String :=
  ⟨padDigits 4 y ++ '-' :: (padDigits 2 m ++ '-' :: padDigits 2 d)⟩

/-- Gregorian leap-year rule, as implemented by `datetime`/`time`. -/
def pyIsLeap (y : Nat) : Bool := y % 4 = 0 ∧ (y % 100 ≠ 0 ∨ y % 400 = 0)

/-- Days in a month, as enforced by the `datetime.date` constructor. -/
def daysInMonth (y m : Nat) : Nat :=
  if m = 2 then (if pyIsLeap y then 29 else 28)
  else if m = 4 ∨ m = 6 ∨ m = 9 ∨ m = 11 then 30
  else 31

/-- The dates `datetime.date(y, m, d)` accepts (`MINYEAR = 1`, `MAXYEAR = 9999`,
calendar-valid month and day). -/
def pyDateValid (y m d : Nat) : Bool :=
  1 ≤ y ∧ y ≤ 9999 ∧ 1 ≤ m ∧ m ≤ 12 ∧ 1 ≤ d ∧ d ≤ daysInMonth y m

/-- Consume up to `k` leading digit characters (the field matching done by
`time.strptime` for `%Y` (k = 4) and `%m`/`%d` (k = 2)). Returns the digits
taken and the rest of the input. -/
def takeDigitsAux : Nat → List Char → List Char × List Char
  | 0, l => ([], l)
  | _ + 1, [] => ([], [])
  | k + 1, c :: cs =>
    if (charDigit? c).isSome then
      let p := takeDigitsAux k cs
      (c :: p.1, p.2)
    else ([], c :: cs)

/-- Python `datetime.date(*time.strptime(value, "%Y-%m-%d")[:3])` as used by
`UdfDictionary._prepare_lookup`: match up to four digits for the year, a
literal dash, up to two digits for month and day, then validate the calendar
date (`strptime` checks the ranges, `datetime.date` the days-in-month rule).
`none` models the raised `ValueError`. -/
def pyStrptimeDate (s : String) : Option (Nat × Nat × Nat) :=
  let py := takeDigitsAux 4 s.data
  match pyParseNatChars py.1 with
  | none => none
  | some y =>
    match py.2 with
    | '-' :: r2 =>
      let pm := takeDigitsAux 2 r2
      match pyParseNatChars pm.1 with
      | none => none
      | some m =>
        match pm.2 with
        | '-' :: r4 =>
          let pd := takeDigitsAux 2 r4
          match pyParseNatChars pd.1 with
          | none => none
          | some d =>
            if pd.2 = [] ∧ pyDateValid y m d then some (y, m, d) else none
        | _ => none
    | _ => none

/-- Python's `str(value)` for the values `UdfDictionary` serializes.
`str` of a float is its `repr` text; `str(True)` is `"True"` (the code
special-cases booleans to `"true"`/`"false"` before reaching `str`). -/
def pyStr : PyVal → String
  | .vNone => "None"
  | .vStr s => s
  | .vInt n => pyStrInt n
  | .vFloat r => r
  | .vBool b => if b then "True" else "False"
  | .vDate y m d => pyStrDate y m d

/-- One `udf:field` element: `name` and `type` attributes plus element text
(`none` when the element has no text node). -/
structure UdfField where
  name : String
  vtype : String
  text : Option String
deriving DecidableEq

/-- The per-element decoding step of `UdfDictionary._prepare_lookup`:

    type = elem.attrib['type'].lower()
    value = elem.text
    if not value: value = None
    elif type == 'numeric': int(value) or float(value)
    elif type == 'boolean': value = value == 'true'
    elif type == 'date':  date(*strptime(value, "%Y-%m-%d")[:3])

A numeric text that parses as neither int nor float, or a malformed date,
raises `ValueError` in Python; such texts come from hand-corrupted documents
and never occur in this development's inputs, so the model totalizes them
(`vFloat text`, resp. `vNone`) instead of threading an exception. -/
def parseUdfText (vtype : String) (text : Option String) : PyVal :=
  let t := pyLower vtype
  match text with
  | none => .vNone
  | some s =>
    if s = "" then .vNone
    else if t = "numeric" then
      match pyParseInt s with
      | some n => .vInt n
      | none => .vFloat s
    else if t = "boolean" then .vBool (decide (s = "true"))
    else if t = "date" then
      match pyStrptimeDate s with
      | some (y, m, d) => .vDate y m d
      | none => .vNone
    else .vStr s

/-- Transcribes `UdfDictionary._prepare_lookup`: `self._lookup[elem.attrib['name']] = value`
for each element in document order (a later element with the same name wins,
as for a Python dict). -/
def prepareLookup (elems : List UdfField) : List (String × PyVal) :=
  elems.foldl (fun acc f => assocSet acc f.name (parseUdfText f.vtype f.text)) []

/-- The `UdfDictionary` state: `_elems` (the `udf:field` elements under the root
node, in document order), `_lookup` (the decoded name-to-value dict) and
`location` (the iteration cursor). The XML sub-tree holding the fields is
represented by the field list itself; the UDT variant (fields nested under a
`udf:type` grouping element) is not exercised by the claims. -/
structure UdfDictionary where
  elems : List UdfField
  lookup : List (String × PyVal)
  location : Nat
deriving DecidableEq

/-- Transcribes `UdfDictionary.__init__`: scan the elements (`_update_elems`), decode them
(`_prepare_lookup`) and set `self.location = 0`. -/
def udfInit (elems : List UdfField) : UdfDictionary :=
  { elems := elems, lookup := prepareLookup elems, location := 0 }

/-- First element whose `name` attribute is `key` (the element
`UdfDictionary.__setitem__`'s for-loop stops at), with its position. -/
def findFieldIdx : List UdfField → String → Option (Nat × UdfField)
  | [], _ => none
  | f :: t, key =>
    if f.name = key then some (0, f)
    else (findFieldIdx t key).map (fun p => (p.1 + 1, p.2))

/-- The validation-and-serialization block of `UdfDictionary.__setitem__` for
an existing entry: check `value`'s Python type against the element's declared
type tag and produce the text to store, or raise `TypeError` with the
messages of descriptors.py. A `None` value skips every check and ends up as
`str(None)`; an unrecognized type tag hits `raise NotImplemented(...)`, which
itself raises a `TypeError` because `NotImplemented` is not callable. -/
def validateSerialize (vtype : String) (v : PyVal) : Except String String :=
  if v = .vNone then .ok "None"
  else if vtype = "string" then
    if pyIsStr v then .ok (pyStr v) else .error "String UDF requires str or unicode value"
  else if vtype = "str" then
    if pyIsStr v then .ok (pyStr v) else .error "String UDF requires str or unicode value"
  else if vtype = "text" then
    if pyIsStr v then .ok (pyStr v) else .error "Text UDF requires str or unicode value"
  else if vtype = "numeric" then
    if pyIsIntFloat v then .ok (pyStr v) else .error "Numeric UDF requires int or float value"
  else if vtype = "boolean" then
    if pyIsBool v then .ok (if v = .vBool true then "true" else "false")
    else .error "Boolean UDF requires bool value"
  else if vtype = "date" then
    if pyIsDate v then .ok (pyStr v) else .error "Date UDF requires datetime.date value"
  else if vtype = "uri" then
    if pyIsStr v then .ok (pyStr v) else .error "URI UDF requires str or punycode (unicode) value"
  else .error "TypeError: NotImplemented is not callable"

/-- The new-entry type heuristics of `UdfDictionary.__setitem__` (the for-else
branch): infer a type tag from the value's Python type, in the source's test
order (string, bool, int/float, date), and produce the element text. -/
def inferType (v : PyVal) : Except String (String × String) :=
  if pyIsStr v then .ok (if strContainsChar (pyStr v) '\n' then "Text" else "String", pyStr v)
  else if pyIsBool v then .ok ("Boolean", if v = .vBool true then "true" else "false")
  else if pyIsIntFloat v then .ok ("Numeric", pyStr v)
  else if pyIsDate v then .ok ("Date", pyStr v)
  else .error "NotImplementedError: Cannot handle value of this type for UDF"

/-- Transcribes `UdfDictionary.__setitem__`. Faithful to the source's order of effects:

1. `self._lookup[key] = value` — the in-memory dict is updated *before* any
   type validation;
2. the loop over `self._elems` looks for the first element named `key`;
   if found, the value is validated against the element's type tag
   (`TypeError` on mismatch, leaving the element untouched) and the
   serialized text is stored on that element;
3. otherwise (for-else) a type tag is inferred, a new element is appended
   under the root node, and `_update_elems`/`_prepare_lookup` rebuild
   `self._elems`/`self._lookup` from the document (so the freshly appended
   element is re-decoded from its text).

The returned pair is (raised exception if any, the object's state after the
call) — on error the state still carries the step-1 lookup mutation. -/
def UdfDictionary.setitem (d : UdfDictionary) (key : String) (v : PyVal) :
    Except String Unit × UdfDictionary :=
  let lookup1 := assocSet d.lookup key v
  match findFieldIdx d.elems key with
  | some (i, f) =>
    match validateSerialize (pyLower f.vtype) v with
    | .error m => (.error m, { d with lookup := lookup1 })
    | .ok text =>
      (.ok (), { d with lookup := lookup1,
                        elems := d.elems.set i { f with text := some text } })
  | none =>
    match inferType v with
    | .error m => (.error m, { d with lookup := lookup1 })
    | .ok (vtype, text) =>
      let elems2 := d.elems ++ [{ name := key, vtype := vtype, text := some text }]
      (.ok (), { d with elems := elems2, lookup := prepareLookup elems2 })

/-- Transcribes `UdfDictionary.get(key, default)`. -/
def UdfDictionary.get (d : UdfDictionary) (key : String) (default : PyVal) : PyVal :=
  (assocGet d.lookup key).getD default

/-- Transcribes `UdfDictionary.__getitem__` (`KeyError` when absent). -/
def UdfDictionary.getitem (d : UdfDictionary) (key : String) : Except String PyVal :=
  match assocGet d.lookup key with
  | some v => .ok v
  | none => .error "KeyError"

/-- Membership `key in udf_dict` (`__contains__`). -/
def UdfDictionary.containsKey (d : UdfDictionary) (key : String) : Bool :=
  (assocGet d.lookup key).isSome

/-- Python `len(udf_dict)` (`__len__`). -/
def UdfDictionary.length (d : UdfDictionary) : Nat :=
  d.lookup.length

/-- Transcribes `UdfDictionary.__next__`: `list(self._lookup.keys())[self.location]`,
advancing `self.location`; an `IndexError` becomes `StopIteration` (`none`).
`__iter__` returns `self` unchanged, so iteration starts at whatever
`location` the object currently holds. -/
def UdfDictionary.next (d : UdfDictionary) : Option (String × UdfDictionary) :=
  match (d.lookup.map Prod.fst).get? d.location with
  | none => none
  | some k => some (k, { d with location := d.location + 1 })

/-- Drain the iterator: the names yielded by repeated `__next__` calls until
`StopIteration`, with the object's final state (what `list(udf_dict)` or a
`for` loop observes). -/
def UdfDictionary.iterateAux : Nat → UdfDictionary → List String × UdfDictionary
  | 0, d => ([], d)
  | fuel + 1, d =>
    match d.next with
    | none => ([], d)
    | some (k, d') =>
      let rest := UdfDictionary.iterateAux fuel d'
      (k :: rest.1, rest.2)

/-- Drain the iterator (see `UdfDictionary.next`): `iterateAux` runs the
`__next__` loop with an explicit structural bound; `__next__` can fire at
most `len(self._lookup) - self.location` times before `StopIteration`, so
the supplied fuel never runs out. -/
def UdfDictionary.iterate (d : UdfDictionary) : List String × UdfDictionary :=
  UdfDictionary.iterateAux (d.lookup.length + 1) d

/-- An `xml.etree.ElementTree` element: tag, attribute dict, text, children
(in document order). Namespaced tags (`nsmap(...)`) are carried as plain
strings. -/
inductive Elem where
  | mk (tag : String) (attrs : List (String × String)) (text : Option String)
      (children : List Elem)

def Elem.tag : Elem → String
  | .mk t _ _ _ => t

def Elem.attrs : Elem → List (String × String)
  | .mk _ a _ _ => a

def Elem.text : Elem → Option String
  | .mk _ _ tx _ => tx

def Elem.children : Elem → List Elem
  | .mk _ _ _ c => c

/-- ElementTree `root.find(tag)`: first child with the given tag. -/
def Elem.find (e : Elem) (tag : String) : Option Elem :=
  e.children.find? (fun c => decide (c.tag = tag))

/-- ElementTree `root.findall(tag)`: all children with the given tag, in document order. -/
def Elem.findall (e : Elem) (tag : String) : List Elem :=
  e.children.filter (fun c => decide (c.tag = tag))

/-- ElementTree `node.attrib[key]` as an option (`none` models the `KeyError` case). -/
def Elem.attr (e : Elem) (key : String) : Option String :=
  assocGet e.attrs key

/-- Modelled from the spec: the fetch-state constants live in
genologics/constants.py, which is not part of the sources; ss4.2 of the spec
fixes `NONE` = 0, `OVERVIEW` = bit 1, `DETAILS` = bit 2, and
`OVERVIEW_OR_DETAILS` as their bitwise union. -/
def FETCH_STATE_NONE : Nat := 0

/-- Modelled from the spec: `OVERVIEW` is bit 1 (see `FETCH_STATE_NONE`). -/
def FETCH_STATE_OVERVIEW : Nat := 1

/-- Modelled from the spec: `DETAILS` is bit 2 (see `FETCH_STATE_NONE`). -/
def FETCH_STATE_DETAILS : Nat := 2

/-- Modelled from the spec: the bitwise union of `OVERVIEW` and `DETAILS`. -/
def FETCH_STATE_OVERVIEW_OR_DETAILS : Nat := 3

/-- The identity-registry state of one `Lims` session for claim C1: the
`self.cache` dict mapping URIs to entity objects, and a counter allocating
fresh object identities (two constructions yield the same Python object
exactly when they yield the same identity number). -/
structure Session where
  cache : List (String × Nat)
  nextId : Nat

/-- Transcribes `Lims.__init__`: `self.cache = dict()` — the registry starts empty. -/
def Session.init : Session := { cache := [], nextId := 0 }

/-- Transcribes `Entity.__new__` followed by `Entity.__init__` for a construction by URI,
as executed by `klass(lims, uri=uri)`:

    __new__:  if lims.cache:             # Python truthiness: an empty dict is falsy
                  try: return lims.cache[uri]
                  except KeyError: return object.__new__(cls)
              else: return object.__new__(cls)
    __init__: if hasattr(self, 'lims'): return      # cache hit: idempotent re-entry
              if lims.cache: lims.cache[uri] = self # registration, same truthiness guard

Returns the object identity of the produced instance and the session state
after the call. Construction by `id` first computes the canonical URI
(`lims.get_uri`) and then follows the same path; `_create_new=True` skips the
registry entirely. -/
def entityConstruct (s : Session) (uri : String) : Nat × Session :=
  if s.cache.isEmpty then
    (s.nextId, { cache := s.cache, nextId := s.nextId + 1 })
  else
    match assocGet s.cache uri with
    | some oid => (oid, s)
    | none =>
      (s.nextId, { cache := assocSet s.cache uri s.nextId, nextId := s.nextId + 1 })

/-- One `Lims` session as the entity/listing operations see it: the
configured base URI and API version, plus the Document Store collaborator
(`fetch(uri) -> Document`) behind `requests`. -/
structure Lims where
  baseuri : String
  version : String
  store : String → Elem

/-- Python `urllib.urlencode(params)` for the plain key/value parameters used here
(no quoting needed). -/
def pyUrlencode (params : List (String × String)) : String :=
  joinWith "&" (params.map (fun p => p.1 ++ "=" ++ p.2))

/-- The URL `requests` sends a request to, given a URL and a `params` dict:
with parameters, `requests` appends `?k=v&...` — or `&k=v&...` if the URL
already carries a query string, duplicating any parameter the URL already
embeds. -/
def requestsUrl (url : String) (params : List (String × String)) : String :=
  if params.isEmpty then url
  else url ++ (if strContainsChar url '?' then "&" else "?") ++ pyUrlencode params

/-- Transcribes `Lims.get(uri, params)` — `requests` first coerces/validates the URL:
passing `None` or a scheme-less string raises `MissingSchema` before anything
is sent. The returned log records the URL handed to the transport layer
(`none` when the Python value was `None` rather than a string). -/
def Lims.get (l : Lims) (uri : Option String) (params : List (String × String)) :
    Except String Elem × List (Option String) :=
  match uri with
  | none => (.error "MissingSchema: Invalid URL None", [none])
  | some u =>
    let url := requestsUrl u params
    if strContainsChar u ':' then (.ok (l.store url), [some url])
    else (.error ("MissingSchema: Invalid URL " ++ u), [some url])

/-- Transcribes `Lims.put`/`Lims.post`: same URL handling as `Lims.get`; the Document
Store's response to a submission is modelled by the store as well (the server
echoes a document back). The request body is accepted but not interpreted by
the model. -/
def Lims.submit (l : Lims) (uri : Option String) (_data : String) :
    Except String Elem × List (Option String) :=
  match uri with
  | none => (.error "MissingSchema: Invalid URL None", [none])
  | some u =>
    if strContainsChar u ':' then (.ok (l.store u), [some u])
    else (.error ("MissingSchema: Invalid URL " ++ u), [some u])

/-- Transcribes `Lims.get_uri(resource)` (no query kwargs): `urljoin(baseuri,
'/'.join(['api', version, resource]))` for the normalized base URI (which
`Lims.__init__` suffixes with `/`). -/
def Lims.getUri (l : Lims) (resource : String) : String :=
  l.baseuri ++ "api/" ++ l.version ++ "/" ++ resource

/-- One entity's state: `self._uri` (`None` for a detached instance),
`self.root` (the cached document), the attribute bag harvested from a parent
listing node (`FetchFromAttributesBag`), and `self.fetch_state`. -/
structure Entity where
  uri : Option String
  root : Option Elem
  bag : Option (List (String × String))
  fetch_state : Nat

/-- Transcribes `Entity.get(force, required_fetch_state)` (entities.py:293):

    assert FETCH_STATE_NONE < required_fetch_state <= FETCH_STATE_OVERVIEW_OR_DETAILS
    if not force and (self.fetch_state & required_fetch_state != 0): return
    self.root = self.lims.get(self.uri)
    self.fetch_state = FETCH_STATE_DETAILS

`required = none` models the parameter's `None` default, on which the assert's
comparison itself raises `TypeError`. Returns (outcome, new entity state,
URLs handed to the transport). -/
def Entity.get (l : Lims) (force : Bool) (required : Option Nat) (e : Entity) :
    Except String Unit × Entity × List (Option String) :=
  match required with
  | none => (.error "TypeError: comparison of int and NoneType",
             e, [])
  | some req =>
    if FETCH_STATE_NONE < req ∧ req ≤ FETCH_STATE_OVERVIEW_OR_DETAILS then
      if ¬force ∧ e.fetch_state &&& req ≠ 0 then (.ok (), e, [])
      else
        match l.get e.uri [] with
        | (.ok doc, log) =>
          (.ok (), { e with root := some doc, fetch_state := FETCH_STATE_DETAILS }, log)
        | (.error m, log) => (.error m, e, log)
    else (.error "AssertionError", e, [])

/-- Transcribes `Entity.id`: `urlsplit(self.uri).path.split('/')[-1]`. On a detached
entity `self.uri` is `None` and `urlsplit(None)` raises (`AttributeError`).
The path is the URI up to the first `?`/`#`. -/
def Entity.idOf (e : Entity) : Except String String :=
  match e.uri with
  | none => .error "AttributeError: urlsplit(None)"
  | some u =>
    let path := u.data.takeWhile (fun c => c ≠ '?' ∧ c ≠ '#')
    .ok (match (splitOnChar path '/').getLast? with
         | some seg => ⟨seg⟩
         | none => "")
where
  /-- `str.split('/')` on a character list. -/
  splitOnChar (l : List Char) (sep : Char) : List (List Char) :=
    l.foldr (fun c acc =>
      match acc with
      | [] => if c = sep then [[], []] else [[c]]
      | g :: gs => if c = sep then [] :: (g :: gs) else (c :: g) :: gs) [[]]

/-- Transcribes `lims.tostring(ElementTree(root))`: serializing `ElementTree(None)`
raises; the model does not need the XML text itself, only that serialization
of a present root succeeds, so the text is left abstract ("<document>"). -/
def limsTostring (root : Option Elem) : Except String String :=
  match root with
  | none => .error "AttributeError: cannot serialize ElementTree(None)"
  | some _ => .ok "<document>"

/-- Transcribes `Entity.put`: serialize `self.root` and PUT it to `self.uri`. -/
def Entity.put (l : Lims) (e : Entity) : Except String Unit × List (Option String) :=
  match limsTostring e.root with
  | .error m => (.error m, [])
  | .ok data =>
    match l.submit e.uri data with
    | (.ok _, log) => (.ok (), log)
    | (.error m, log) => (.error m, log)

/-- Python `str.format` of an arbitrary value interpolates `str(value)`;
`str(None)` is the four-character string `None`. -/
def pyFormatOpt : Option String → String
  | none => "None"
  | some s => s

/-- Transcribes `Step.advance` (entities.py:904): POST the serialized root to
`"{}/advance".format(self.uri)`. The URL string is built by `str.format`
before anything else, so for a detached step it is the literal
`"None/advance"`; it is then handed to the transport (which rejects it for
lack of a scheme). On success the response document replaces `self.root`. -/
def Entity.advance (l : Lims) (e : Entity) :
    Except String Unit × Entity × List (Option String) :=
  let url := pyFormatOpt e.uri ++ "/advance"
  match limsTostring e.root with
  | .error m => (.error m, e, [])
  | .ok data =>
    match l.submit (some url) data with
    | (.ok doc, log) => (.ok (), { e with root := some doc }, log)
    | (.error m, log) => (.error m, e, log)

/-- Transcribes `TagDescriptor.is_available_in_bag` (descriptors.py:69):
`instance.bag is not None and instance.root is None and self.tag in instance.bag`. -/
def isAvailableInBag (tag : String) (e : Entity) : Bool :=
  match e.bag with
  | none => false
  | some bg => e.root.isNone && (assocGet bg tag).isSome

/-- ElementTree `node.text` after `get_node`: `root.find(tag)`, or the root itself when
the descriptor's tag is empty (`if self.tag:` — falsy for `None`/`""`). -/
def findText (doc : Elem) (tag : String) : Option String :=
  if tag = "" then doc.text
  else match doc.find tag with
       | none => none
       | some node => node.text

/-- Modelled from the spec: the read path of a string attribute binding.
`BaseDescriptor.__get__` and `TagDescriptor.is_available_in_bag` are
transcribed from src descriptors.py (bag check first, then
`get_from_loaded`, which calls `instance.get()` and reads
`self.get_node(instance)`); the binding's required fetch state, however, is
declared in the entity catalog of src entities.py (e.g.
`StringDescriptor('name', FETCH_STATE_OVERVIEW_OR_DETAILS)`) while the
descriptors module in src predates that constructor parameter — per spec
ss4.1/ss4.2 the read ensures the binding's required state via the entity and
then decodes from the document. Reading the located node on an entity whose
root is still `None` raises `AttributeError` in Python. -/
def stringDescriptorGet (l : Lims) (tag : String) (required : Nat) (e : Entity) :
    Except String (Option String) × Entity × List (Option String) :=
  if isAvailableInBag tag e then
    match e.bag with
    | some bg =>
      match assocGet bg tag with
      | some raw => (.ok (some raw), e, [])
      | none => (.error "KeyError", e, [])
    | none => (.error "KeyError", e, [])
  else
    match Entity.get l false (some required) e with
    | (.ok _, e', log) =>
      match e'.root with
      | none => (.error "AttributeError: 'NoneType' object has no attribute 'find'", e', log)
      | some doc => (.ok (findText doc tag), e', log)
    | (.error m, e', log) => (.error m, e', log)

/-- ElementTree `node.attrib['uri']` with `KeyError` on absence. -/
def requireUriAttr (node : Elem) : Except String String :=
  match node.attr "uri" with
  | some u => .ok u
  | none => .error "KeyError: uri"

/-- The page loop of `Lims._get_instances` (lims.py:361):

    while params.get('start-index') is None:
        for node in root.findall(tag): result.append(klass(self, uri=node.attrib['uri']))
        node = root.find('next-page')
        if node is None: break
        root = self.get(node.attrib['uri'])      # note: params NOT resubmitted

The accumulated result is represented by the list of member URIs (each
member is then constructed through the registry, see `entityConstruct`).
`fuel` bounds the length of the next-page chain; real chains are finite.
Returns (member URIs, URLs handed to the transport). -/
def instancesLoop (l : Lims) (params : List (String × String)) (tag : String) :
    Nat → Elem → List String → List (Option String) →
    Except String (List String × List (Option String))
  | 0, _, _, _ => .error "model: page fuel exhausted"
  | fuel + 1, root, acc, log =>
    if (assocGet params "start-index").isSome then .ok (acc, log)
    else
      match (root.findall tag).mapM requireUriAttr with
      | .error m => .error m
      | .ok uris =>
        match root.find "next-page" with
        | none => .ok (acc ++ uris, log)
        | some np =>
          match requireUriAttr np with
          | .error m => .error m
          | .ok nextUri =>
            match l.get (some nextUri) [] with
            | (.ok root2, log2) => instancesLoop l params tag fuel root2 (acc ++ uris) (log ++ log2)
            | (.error m, _) => .error m

/-- Transcribes `Lims._get_instances(klass, params)`: GET the collection URI with the
query parameters, then follow next-page pointers (without the parameters). -/
def Lims.getInstances (l : Lims) (resource tag : String)
    (params : List (String × String)) (fuel : Nat) :
    Except String (List String × List (Option String)) :=
  match l.get (some (l.getUri resource)) params with
  | (.ok root, log) => instancesLoop l params tag fuel root [] log
  | (.error m, _) => .error m

/-- The page loop of `Lims.get_sample_number` (lims.py:211):

    root = self.get(self.get_uri(Sample._URI), params=params)
    total = 0
    while params.get('start-index') is None:
        total += len(root.findall("sample"))
        node = root.find('next-page')
        if node is None: break
        root = self.get(node.attrib['uri'], params=params)   # params ARE resubmitted

Returns (total, URLs handed to the transport). -/
def sampleNumberLoop (l : Lims) (params : List (String × String)) :
    Nat → Elem → Nat → List (Option String) →
    Except String (Nat × List (Option String))
  | 0, _, _, _ => .error "model: page fuel exhausted"
  | fuel + 1, root, total, log =>
    if (assocGet params "start-index").isSome then .ok (total, log)
    else
      let total2 := total + (root.findall "sample").length
      match root.find "next-page" with
      | none => .ok (total2, log)
      | some np =>
        match requireUriAttr np with
        | .error m => .error m
        | .ok nextUri =>
          match l.get (some nextUri) params with
          | (.ok root2, log2) => sampleNumberLoop l params fuel root2 total2 (log ++ log2)
          | (.error m, _) => .error m

/-- Transcribes `Lims.get_sample_number(...)`. -/
def Lims.getSampleNumber (l : Lims) (params : List (String × String)) (fuel : Nat) :
    Except String (Nat × List (Option String)) :=
  match l.get (some (l.getUri "samples")) params with
  | (.ok root, log) => sampleNumberLoop l params fuel root 0 log
  | (.error m, _) => .error m


/-- A sequence of `Entity.get` calls applied to one entity (the "any
sequence of operations" of the fetch-state claims): each element is the
`(force, required_fetch_state)` argument pair of one call; errors raised by a
call leave the entity state unchanged, as in Python. -/
def runGets (l : Lims) (ops : List (Bool × Option Nat)) (e : Entity) : Entity :=
  ops.foldl (fun acc op => (Entity.get l op.1 op.2 acc).2.1) e

/-- Python value `v` is of the type matching declared type tag `t` in the
sense of the UDF codec table (String/Str/Text/URI hold text, Numeric holds
int or float, Boolean holds bool, Date holds a calendar date). -/
def tagMatches (t : String) (v : PyVal) : Prop :=
  match v with
  | .vStr _ => pyLower t = "string" ∨ pyLower t = "str" ∨ pyLower t = "text" ∨ pyLower t = "uri"
  | .vInt _ => pyLower t = "numeric"
  | .vFloat _ => pyLower t = "numeric"
  | .vBool _ => pyLower t = "boolean"
  | .vDate _ _ _ => pyLower t = "date"
  | .vNone => False

instance (t : String) (v : PyVal) : Decidable (tagMatches t v) := by
  unfold tagMatches
  cases v <;> infer_instance

/-- The values whose creation of a *new* UDF entry round-trips through the
text codec: nonempty strings, ints, floats (a Python float `repr` is never
plain digits, so `int(repr)` fails and `float(repr)` restores the value),
bools, and constructible dates. The empty string is excluded — that is the
correction claim C5 records. `None` and any other Python type have no
type-inference rule. -/
def newEntryOk : PyVal → Prop
  | .vStr s => s ≠ ""
  | .vInt _ => True
  | .vFloat r => r ≠ "" ∧ pyParseInt r = none
  | .vBool _ => True
  | .vDate y m d => pyDateValid y m d = true
  | .vNone => False

instance (v : PyVal) : Decidable (newEntryOk v) := by
  unfold newEntryOk
  cases v <;> infer_instance

/-! ### Concrete fixtures used by the closed theorems -/

/-- A `Lims` session whose Document Store answers every URI with the same
small document. -/
def lims0 : Lims :=
  { baseuri := "http://somewhere/", version := "v2",
    store := fun _ => Elem.mk "doc" [] (some "server") [] }

/-- A `Workflow` entity as a workflow listing hydrates it: constructed with
`fetch_state=FETCH_STATE_OVERVIEW` and no document of its own (the
integration test asserts `workflow.fetch_state == FETCH_STATE_OVERVIEW`
after `get_workflows`). -/
def overviewWorkflow : Entity :=
  { uri := some "http://somewhere/api/v2/configuration/workflows/51",
    root := none, bag := none, fetch_state := FETCH_STATE_OVERVIEW }

/-- An entity already holding full detail. -/
def detailsSample : Entity :=
  { uri := some "http://somewhere/api/v2/samples/S1",
    root := some (Elem.mk "smp:sample" [] none [Elem.mk "name" [] (some "S1-name") []]),
    bag := none, fetch_state := FETCH_STATE_DETAILS }

/-- A detached `Step` as `Step._create` builds it (`_create_new=True`): no
URI, a fresh root element, fetch state `NONE`. -/
def detachedStep : Entity :=
  { uri := none, root := some (Elem.mk "stp:step" [] none []),
    bag := none, fetch_state := FETCH_STATE_NONE }

/-- An overview-hydrated `Stage` carrying an attribute bag harvested from the
listing node, its own document not loaded. -/
def bagStage : Entity :=
  { uri := some "http://somewhere/api/v2/configuration/workflows/51/stages/1",
    root := none, bag := some [("name", "Stage 1"), ("status", "COMPLETE")],
    fetch_state := FETCH_STATE_NONE }

/-- An entity whose document is loaded while its bag still holds a (stale)
value for `name`. -/
def loadedStage : Entity :=
  { uri := some "http://somewhere/api/v2/configuration/workflows/51/stages/1",
    root := some (Elem.mk "wkfcnf:stage" [] none [Elem.mk "name" [] (some "DocName") []]),
    bag := some [("name", "BagName"), ("status", "COMPLETE")],
    fetch_state := FETCH_STATE_DETAILS }

/-- A UDF dictionary with one existing Numeric field (value 42). -/
def c5dict : UdfDictionary := udfInit [{ name := "num", vtype := "Numeric", text := some "42" }]

/-- An empty UDF dictionary. -/
def c5empty : UdfDictionary := udfInit []

/-- A UDF dictionary with a Numeric and a Boolean field. -/
def c6dict : UdfDictionary :=
  udfInit [{ name := "num", vtype := "Numeric", text := some "42" },
           { name := "flag", vtype := "Boolean", text := some "true" }]

/-- A UDF dictionary with one existing Numeric field (value 42). -/
def c7dict : UdfDictionary := udfInit [{ name := "num", vtype := "Numeric", text := some "42" }]

/-- The first-page URL of a sample listing filtered by `name=container`. -/
def samplesFirstUrl : String := "http://somewhere/api/v2/samples?name=container"

/-- The literal next-page URI the server embeds in the first samples page. -/
def samplesNextUri : String := "http://somewhere/api/v2/samples?name=container&start-index=500"

/-- The URL `get_sample_number` actually requests for page 2: the next-page
URI with the original query parameters appended again by `requests`. -/
def samplesResubmitUrl : String :=
  "http://somewhere/api/v2/samples?name=container&start-index=500&name=container"

/-- The first-page URL of a container listing filtered by `name=container`. -/
def containersFirstUrl : String := "http://somewhere/api/v2/containers?name=container"

/-- The literal next-page URI the server embeds in the first containers page. -/
def containersNextUri : String :=
  "http://somewhere/api/v2/containers?name=container&start-index=500"

/-- A two-page Document Store for both listings: each first page carries one
member and a `next-page` pointer; the second page carries one member and no
pointer (the shape of the regression test's mocked multi-page response). -/
def pagingStore : String → Elem := fun u =>
  if u = samplesFirstUrl then
    Elem.mk "smp:samples" [] none
      [Elem.mk "sample" [("uri", "http://somewhere/api/v2/samples/S1"), ("limsid", "S1")] none [],
       Elem.mk "next-page" [("uri", samplesNextUri)] none []]
  else if u = samplesResubmitUrl then
    Elem.mk "smp:samples" [] none
      [Elem.mk "sample" [("uri", "http://somewhere/api/v2/samples/S2"), ("limsid", "S2")] none []]
  else if u = containersFirstUrl then
    Elem.mk "con:containers" [] none
      [Elem.mk "container" [("uri", "http://somewhere/api/v2/containers/C1")] none [],
       Elem.mk "next-page" [("uri", containersNextUri)] none []]
  else if u = containersNextUri then
    Elem.mk "con:containers" [] none
      [Elem.mk "container" [("uri", "http://somewhere/api/v2/containers/C2")] none []]
  else Elem.mk "empty" [] none []

/-- The session the pagination theorems run against. -/
def pagingLims : Lims :=
  { baseuri := "http://somewhere/", version := "v2", store := pagingStore }

/-! ### Helper lemmas about the Python value codecs -/

theorem assocGet_assocSet {α : Type} (l : List (String × α)) (k : String) (v : α) :
    assocGet (assocSet l k v) k = some v := by
  induction l with
  | nil => simp [assocSet, assocGet]
  | cons h t ih =>
    obtain ⟨k', v'⟩ := h
    by_cases hk : k' = k
    · simp [assocSet, hk, assocGet]
    · simp [assocSet, hk, assocGet, ih]

theorem charDigit?_digitChar {d : Nat} (h : d < 10) :
    charDigit? (Nat.digitChar d) = some d := by
  interval_cases d <;> decide

theorem parseDigitsAux_append (l₁ l₂ : List Char) (acc : Nat) :
    parseDigitsAux (l₁ ++ l₂) acc =
      (parseDigitsAux l₁ acc).bind (parseDigitsAux l₂) := by
  induction l₁ generalizing acc with
  | nil => simp [parseDigitsAux]
  | cons c cs ih =>
    simp only [List.cons_append, parseDigitsAux]
    cases charDigit? c with
    | none => simp
    | some dg => simp [ih]

theorem parseDigitsAux_natDigitsAux :
    ∀ fuel n acc, n < fuel → parseDigitsAux (natDigitsAux fuel n) acc =
      some (acc * 10 ^ (natDigitsAux fuel n).length + n) := by
  intro fuel
  induction fuel with
  | zero => intro n acc h; omega
  | succ fuel ih =>
    intro n acc h
    rw [natDigitsAux]
    by_cases hn : n < 10
    · simp only [hn, if_true]
      rw [parseDigitsAux, charDigit?_digitChar hn]
      simp [parseDigitsAux]
    · simp only [hn, if_false]
      have hdiv : n / 10 < fuel := by
        have := Nat.div_lt_self (show 0 < n by omega) (show 1 < 10 by omega)
        omega
      rw [parseDigitsAux_append, ih (n / 10) acc hdiv]
      rw [Option.some_bind, parseDigitsAux, charDigit?_digitChar (Nat.mod_lt n (by omega))]
      simp only [parseDigitsAux, List.length_append, List.length_singleton]
      congr 1
      have := Nat.div_add_mod n 10
      ring_nf
      omega

theorem parseDigitsAux_natDigits (n : Nat) :
    ∀ acc, parseDigitsAux (natDigits n) acc =
      some (acc * 10 ^ (natDigits n).length + n) :=
  fun acc => parseDigitsAux_natDigitsAux (n + 1) n acc (by omega)

theorem natDigits_ne_nil (n : Nat) : natDigits n ≠ [] := by
  rw [natDigits, natDigitsAux]
  by_cases h : n < 10 <;> simp [h]

theorem pyParseNatChars_natDigits (n : Nat) :
    pyParseNatChars (natDigits n) = some n := by
  rw [pyParseNatChars, if_neg]
  · rw [parseDigitsAux_natDigits n 0]; simp
  · simp [natDigits_ne_nil n]

theorem natDigits_head_digit (n : Nat) :
    ∀ c l, natDigits n = c :: l → charDigit? c ≠ none := by
  intro c l hd hc
  have := pyParseNatChars_natDigits n
  rw [pyParseNatChars, hd] at this
  simp only [List.isEmpty_cons, if_neg] at this
  rw [parseDigitsAux, hc] at this
  simp at this

theorem pyParseInt_pyStrInt (n : Int) : pyParseInt (pyStrInt n) = some n := by
  by_cases h : n < 0
  · rw [pyStrInt, if_pos h, pyParseInt]
    have hdata : ("-" ++ pyStrNat n.natAbs).data = '-' :: natDigits n.natAbs := by
      rw [String.data_append]; rfl
    rw [hdata]
    simp only [List.head?_cons, List.tail_cons, if_pos rfl, pyParseNatChars_natDigits]
    show some (-(n.natAbs : Int)) = some n
    congr 1
    omega
  · rw [pyStrInt, if_neg h, pyParseInt]
    have hdata : (pyStrNat n.natAbs).data = natDigits n.natAbs := rfl
    rw [hdata]
    rcases hnd : natDigits n.natAbs with _ | ⟨c, l⟩
    · exact absurd hnd (natDigits_ne_nil _)
    · have hc : charDigit? c ≠ none := natDigits_head_digit _ _ _ hnd
      have hcdash : ¬(List.head? (c :: l) = some '-') := by
        simp only [List.head?_cons, Option.some.injEq]
        intro hcc
        apply hc
        rw [hcc]
        decide
      rw [if_neg hcdash, ← hnd, pyParseNatChars_natDigits]
      show some ((n.natAbs : Nat) : Int) = some n
      congr 1
      omega

theorem natDigitsAux_all_digits :
    ∀ fuel n, n < fuel → ∀ c ∈ natDigitsAux fuel n, (charDigit? c).isSome := by
  intro fuel
  induction fuel with
  | zero => intro n h; omega
  | succ fuel ih =>
    intro n h c hc
    rw [natDigitsAux] at hc
    by_cases hn : n < 10
    · simp only [hn, if_true, List.mem_singleton] at hc
      rw [hc, charDigit?_digitChar hn]
      rfl
    · simp only [hn, if_false, List.mem_append, List.mem_singleton] at hc
      have hdiv : n / 10 < fuel := by
        have := Nat.div_lt_self (show 0 < n by omega) (show 1 < 10 by omega)
        omega
      rcases hc with hc | hc
      · exact ih (n / 10) hdiv c hc
      · rw [hc, charDigit?_digitChar (Nat.mod_lt n (by omega))]
        rfl

theorem natDigits_all_digits (n : Nat) :
    ∀ c ∈ natDigits n, (charDigit? c).isSome :=
  natDigitsAux_all_digits (n + 1) n (by omega)

theorem natDigitsAux_length_le :
    ∀ fuel k n, n < fuel → 1 ≤ k → n < 10 ^ k → (natDigitsAux fuel n).length ≤ k := by
  intro fuel
  induction fuel with
  | zero => intro k n hf; omega
  | succ fuel ih =>
    intro k n hf hk h
    rw [natDigitsAux]
    by_cases hn : n < 10
    · simp only [hn, if_true, List.length_singleton]
      omega
    · simp only [hn, if_false, List.length_append, List.length_singleton]
      have hk2 : 2 ≤ k := by
        by_contra hlt
        have : k = 1 := by omega
        rw [this] at h
        simp at h
        omega
      have hdiv10 : n / 10 < 10 ^ (k - 1) := by
        have h10 : 10 ^ k = 10 ^ (k - 1) * 10 := by
          rw [← pow_succ]
          congr 1
          omega
        omega
      have hdivf : n / 10 < fuel := by
        have := Nat.div_lt_self (show 0 < n by omega) (show 1 < 10 by omega)
        omega
      have := ih (k - 1) (n / 10) hdivf (by omega) hdiv10
      omega

theorem natDigits_length_le (k n : Nat) (hk : 1 ≤ k) (h : n < 10 ^ k) :
    (natDigits n).length ≤ k :=
  natDigitsAux_length_le (n + 1) k n (by omega) hk h

theorem padDigits_all_digits (w n : Nat) :
    ∀ c ∈ padDigits w n, (charDigit? c).isSome := by
  intro c hc
  rw [padDigits, List.mem_append] at hc
  rcases hc with hc | hc
  · rw [List.eq_of_mem_replicate hc]
    decide
  · exact natDigits_all_digits n c hc

theorem padDigits_length_le (w n : Nat) (h : (natDigits n).length ≤ w) :
    (padDigits w n).length ≤ w := by
  rw [padDigits, List.length_append, List.length_replicate]
  omega

theorem takeDigitsAux_all_sep (l : List Char) :
    ∀ k r, (∀ c ∈ l, (charDigit? c).isSome) → l.length ≤ k →
      takeDigitsAux k (l ++ '-' :: r) = (l, '-' :: r) := by
  induction l with
  | nil =>
    intro k r _ _
    cases k with
    | zero => rfl
    | succ k => rw [List.nil_append, takeDigitsAux, if_neg (by decide)]
  | cons c cs ih =>
    intro k r hdig hlen
    cases k with
    | zero => simp at hlen
    | succ k =>
      rw [List.cons_append, takeDigitsAux]
      have hc : (charDigit? c).isSome := hdig c (List.mem_cons_self c cs)
      rw [if_pos hc]
      have := ih k r (fun x hx => hdig x (List.mem_cons_of_mem c hx)) (by simpa using hlen)
      rw [this]

theorem takeDigitsAux_all_end (l : List Char) :
    ∀ k, (∀ c ∈ l, (charDigit? c).isSome) → l.length ≤ k →
      takeDigitsAux k l = (l, []) := by
  induction l with
  | nil =>
    intro k _ _
    cases k <;> rfl
  | cons c cs ih =>
    intro k hdig hlen
    cases k with
    | zero => simp at hlen
    | succ k =>
      rw [takeDigitsAux]
      have hc : (charDigit? c).isSome := hdig c (List.mem_cons_self c cs)
      rw [if_pos hc]
      have := ih k (fun x hx => hdig x (List.mem_cons_of_mem c hx)) (by simpa using hlen)
      rw [this]

theorem parseDigitsAux_replicate_zero (z : Nat) :
    parseDigitsAux (List.replicate z '0') 0 = some 0 := by
  induction z with
  | zero => rfl
  | succ z ih =>
    rw [List.replicate_succ, parseDigitsAux]
    norm_num [charDigit?]
    exact ih

theorem pyParseNatChars_padDigits (w n : Nat) :
    pyParseNatChars (padDigits w n) = some n := by
  rw [padDigits, pyParseNatChars, if_neg]
  · rw [parseDigitsAux_append, parseDigitsAux_replicate_zero, Option.some_bind]
    have := parseDigitsAux_natDigits n 0
    simpa using this
  · simp [natDigits_ne_nil n]

theorem pyStrptimeDate_pyStrDate (y m d : Nat) (h : pyDateValid y m d = true) :
    pyStrptimeDate (pyStrDate y m d) = some (y, m, d) := by
  have hv : 1 ≤ y ∧ y ≤ 9999 ∧ 1 ≤ m ∧ m ≤ 12 ∧ 1 ≤ d ∧ d ≤ daysInMonth y m := by
    rw [pyDateValid] at h
    simpa using h
  have hym : (natDigits y).length ≤ 4 :=
    natDigits_length_le 4 y (by omega) (by have := hv.2.1; norm_num; omega)
  have hmm : (natDigits m).length ≤ 2 :=
    natDigits_length_le 2 m (by omega) (by have := hv.2.2.2.1; norm_num; omega)
  have hdm : d ≤ 31 := by
    have := hv.2.2.2.2.2
    have h31 : daysInMonth y m ≤ 31 := by
      rw [daysInMonth]
      by_cases h2 : m = 2
      · simp only [h2, if_true]
        by_cases hl : pyIsLeap y = true <;> simp [hl]
      · by_cases h4 : m = 4 ∨ m = 6 ∨ m = 9 ∨ m = 11 <;> simp [h2, h4]
    omega
  have hdd : (natDigits d).length ≤ 2 :=
    natDigits_length_le 2 d (by omega) (by norm_num; omega)
  have hdata : (pyStrDate y m d).data =
      padDigits 4 y ++ '-' :: (padDigits 2 m ++ '-' :: padDigits 2 d) := rfl
  rw [pyStrptimeDate]
  simp only [hdata]
  rw [takeDigitsAux_all_sep (padDigits 4 y) 4 _ (padDigits_all_digits 4 y)
        (padDigits_length_le 4 y hym)]
  simp only [pyParseNatChars_padDigits]
  rw [takeDigitsAux_all_sep (padDigits 2 m) 2 _ (padDigits_all_digits 2 m)
        (padDigits_length_le 2 m hmm)]
  simp only [pyParseNatChars_padDigits]
  rw [takeDigitsAux_all_end (padDigits 2 d) 2 (padDigits_all_digits 2 d)
        (padDigits_length_le 2 d hdd)]
  simp only [pyParseNatChars_padDigits]
  simp [h]

theorem pyStrNat_ne_empty (n : Nat) : pyStrNat n ≠ "" := by
  intro h
  have hd := congrArg String.data h
  have : (pyStrNat n).data = natDigits n := rfl
  rw [this] at hd
  exact natDigits_ne_nil n hd

theorem pyStrInt_ne_empty (n : Int) : pyStrInt n ≠ "" := by
  rw [pyStrInt]
  by_cases h : n < 0
  · rw [if_pos h]
    intro heq
    have hd := congrArg String.data heq
    rw [String.data_append] at hd
    simp at hd
  · rw [if_neg h]
    exact pyStrNat_ne_empty n.natAbs

theorem pyStrDate_ne_empty (y m d : Nat) : pyStrDate y m d ≠ "" := by
  intro h
  have hd := congrArg String.data h
  have : (pyStrDate y m d).data = padDigits 4 y ++ '-' :: (padDigits 2 m ++ '-' :: padDigits 2 d) := rfl
  rw [this] at hd
  simp at hd

theorem prepareLookup_append_single (l : List UdfField) (f : UdfField) :
    prepareLookup (l ++ [f]) =
      assocSet (prepareLookup l) f.name (parseUdfText f.vtype f.text) := by
  simp [prepareLookup, List.foldl_append]

theorem drop_cons_of_getQ {α : Type} (l : List α) :
    ∀ n x, l.get? n = some x → l.drop n = x :: l.drop (n + 1) := by
  induction l with
  | nil => intro n x h; simp at h
  | cons a t ih =>
    intro n x h
    cases n with
    | zero =>
      simp only [List.get?_cons_zero, Option.some.injEq] at h
      simp [h]
    | succ n =>
      simp only [List.get?_cons_succ] at h
      simp only [List.drop_succ_cons]
      exact ih n x h

theorem iterateAux_succ_none (fuel : Nat) (d : UdfDictionary) (hn : d.next = none) :
    UdfDictionary.iterateAux (fuel + 1) d = ([], d) := by
  rw [UdfDictionary.iterateAux, hn]

theorem iterateAux_succ_some (fuel : Nat) (d d' : UdfDictionary) (k : String)
    (hn : d.next = some (k, d')) :
    UdfDictionary.iterateAux (fuel + 1) d =
      (k :: (UdfDictionary.iterateAux fuel d').1, (UdfDictionary.iterateAux fuel d').2) := by
  rw [UdfDictionary.iterateAux, hn]

theorem udf_iterateAux_spec :
    ∀ fuel (d : UdfDictionary), d.lookup.length - d.location < fuel →
      UdfDictionary.iterateAux fuel d =
        ((d.lookup.map Prod.fst).drop d.location,
         { d with location := d.location + (d.lookup.length - d.location) }) := by
  intro fuel
  induction fuel with
  | zero => intro d h; omega
  | succ fuel ih =>
    intro d h
    rcases hn : d.next with _ | ⟨k, d'⟩
    · have hge : d.lookup.length ≤ d.location := by
        rw [UdfDictionary.next] at hn
        rcases hget : (d.lookup.map Prod.fst).get? d.location with _ | k'
        · have := List.get?_eq_none.mp hget
          simpa using this
        · rw [hget] at hn; simp at hn
      have hdrop : (d.lookup.map Prod.fst).drop d.location = [] := by
        apply List.drop_eq_nil_of_le
        simpa using hge
      have hzero : d.lookup.length - d.location = 0 := by omega
      rw [iterateAux_succ_none fuel d hn, hdrop, hzero]
      show ([], d) = ([], { d with location := d.location + 0 })
      simp
    · rw [UdfDictionary.next] at hn
      rcases hget : (d.lookup.map Prod.fst).get? d.location with _ | k'
      · rw [hget] at hn; simp at hn
      · rw [hget] at hn
        simp only [Option.some.injEq, Prod.mk.injEq] at hn
        obtain ⟨hk, hd'⟩ := hn
        have hlt : d.location < d.lookup.length := by
          rcases List.get?_eq_some.mp hget with ⟨hlen, _⟩
          simpa using hlen
        have hfuel : d'.lookup.length - d'.location < fuel := by
          rw [← hd']
          show d.lookup.length - (d.location + 1) < fuel
          omega
        have hnext : d.next = some (k, d') := by
          rw [UdfDictionary.next, hget, hk, hd']
        rw [iterateAux_succ_some fuel d d' k hnext, ih d' hfuel]
        have hdrop : (d.lookup.map Prod.fst).drop d.location =
            k :: (d.lookup.map Prod.fst).drop (d.location + 1) := by
          apply drop_cons_of_getQ
          rw [hget, hk]
        rw [hdrop, ← hd']
        show (k :: (d.lookup.map Prod.fst).drop (d.location + 1),
              { d with location := (d.location + 1) + (d.lookup.length - (d.location + 1)) }) =
             (k :: (d.lookup.map Prod.fst).drop (d.location + 1),
              { d with location := d.location + (d.lookup.length - d.location) })
        have harith : (d.location + 1) + (d.lookup.length - (d.location + 1)) =
               d.location + (d.lookup.length - d.location) := by omega
        rw [harith]

theorem udf_iterate_spec (d : UdfDictionary) :
    d.iterate =
      ((d.lookup.map Prod.fst).drop d.location,
       { d with location := d.location + (d.lookup.length - d.location) }) :=
  udf_iterateAux_spec (d.lookup.length + 1) d (by omega)

theorem entity_get_fetch_state (l : Lims) (force : Bool) (required : Option Nat) (e : Entity) :
    ((Entity.get l force required e).2.1).fetch_state = e.fetch_state ∨
    ((Entity.get l force required e).2.1).fetch_state = FETCH_STATE_DETAILS := by
  cases required with
  | none => left; rfl
  | some req =>
    simp only [Entity.get]
    by_cases hv : FETCH_STATE_NONE < req ∧ req ≤ FETCH_STATE_OVERVIEW_OR_DETAILS
    · rw [if_pos hv]
      by_cases hb : ¬force ∧ e.fetch_state &&& req ≠ 0
      · rw [if_pos hb]; left; rfl
      · rw [if_neg hb]
        rcases hget : l.get e.uri [] with ⟨res, log⟩
        cases res with
        | ok doc => right; rfl
        | error m => left; rfl
    · rw [if_neg hv]; left; rfl

/-! ### Claim theorems -/

/-- Claim C1 (the code violates it): in a session started by `Lims.__init__`
the registry guard `if lims.cache:` is false for the initial empty dict, so
no entity is ever registered: for every URI, two constructions in a fresh
session yield two distinct object identities, and the session cache stays
empty forever. -/
theorem C1_identity_cache_never_populated (uri : String) :
    (entityConstruct ((entityConstruct Session.init uri).2) uri).1 ≠
      (entityConstruct Session.init uri).1 ∧
    ((entityConstruct ((entityConstruct Session.init uri).2) uri).2).cache = [] :=
  ⟨Nat.one_ne_zero, rfl⟩

/-- Claim C7 (the code violates it): on a dictionary holding Numeric field
`num` = 42, the rejected assignment `udf["num"] = "oops"` raises the
type-mismatch error but leaves the in-memory lookup already mutated: a
subsequent `get` returns `"oops"`, not 42 (only the backing XML element is
unchanged). -/
theorem C7_rejected_set_corrupts_dict :
    c7dict.get "num" .vNone = .vInt 42 ∧
    (c7dict.setitem "num" (.vStr "oops")).1 = .error "Numeric UDF requires int or float value" ∧
    (c7dict.setitem "num" (.vStr "oops")).2.get "num" .vNone = .vStr "oops" ∧
    (c7dict.setitem "num" (.vStr "oops")).2.elems = c7dict.elems :=
  ⟨rfl, rfl, rfl, rfl⟩

/-- Claim C10 (confirmed): a freshly constructed `UdfDictionary` starts its
iteration cursor at 0; a first complete iteration yields every name in
order and leaves the cursor at the entry count; iterating the same object
again yields no names at all (the cursor is never reset). -/
theorem C10_udf_iteration_consumes (elems : List UdfField) :
    (udfInit elems).iterate =
      ((udfInit elems).lookup.map Prod.fst,
       { udfInit elems with location := (udfInit elems).lookup.length }) ∧
    ({ udfInit elems with location := (udfInit elems).lookup.length } : UdfDictionary).iterate =
      ([], { udfInit elems with location := (udfInit elems).lookup.length }) := by
  constructor
  · rw [udf_iterate_spec]
    simp [udfInit]
  · rw [udf_iterate_spec]
    simp [udfInit, List.drop_eq_nil_of_le]

/-- Claim C2, counterexample: an entity hydrated at OVERVIEW (as the
workflow listing produces) loses the OVERVIEW bit when a detail fetch runs:
`Entity.get` assigns `fetch_state = FETCH_STATE_DETAILS`, so a bit that was
set is no longer set afterwards — fetch_state does not only gain bits. -/
theorem C2_counterexample :
    overviewWorkflow.fetch_state &&& FETCH_STATE_OVERVIEW ≠ 0 ∧
    ((Entity.get lims0 false (some FETCH_STATE_DETAILS) overviewWorkflow).2.1).fetch_state &&&
        FETCH_STATE_OVERVIEW = 0 := by
  decide

/-- Claim C2 as amended: across any sequence of `Entity.get` calls, an
entity's fetch state never returns to NONE and never loses the DETAILS bit;
only the OVERVIEW bit can be cleared (by the full fetch shown in the
counterexample). -/
theorem C2_fetch_state_monotone_amended (l : Lims) (ops : List (Bool × Option Nat)) (e : Entity) :
    (e.fetch_state &&& FETCH_STATE_DETAILS ≠ 0 →
      (runGets l ops e).fetch_state &&& FETCH_STATE_DETAILS ≠ 0) ∧
    (e.fetch_state ≠ 0 → (runGets l ops e).fetch_state ≠ 0) := by
  induction ops generalizing e with
  | nil => exact ⟨fun h => h, fun h => h⟩
  | cons op t ih =>
    have hstep := entity_get_fetch_state l op.1 op.2 e
    have hr : runGets l (op :: t) e = runGets l t ((Entity.get l op.1 op.2 e).2.1) := rfl
    rw [hr]
    constructor
    · intro hd
      refine (ih _).1 ?_
      rcases hstep with hs | hs
      · rw [hs]; exact hd
      · rw [hs]; decide
    · intro hnz
      refine (ih _).2 ?_
      rcases hstep with hs | hs
      · rw [hs]; exact hnz
      · rw [hs]; decide

/-- Witness for the amended claim C2 at a concrete input: an entity holding
DETAILS keeps a nonzero fetch state with the DETAILS bit set across a
sequence of reads. -/
theorem C2_fetch_state_monotone_amended_witness :
    ((runGets lims0 [(false, some FETCH_STATE_DETAILS), (false, some FETCH_STATE_OVERVIEW)]
        detailsSample).fetch_state &&& FETCH_STATE_DETAILS ≠ 0) ∧
    ((runGets lims0 [(false, some FETCH_STATE_DETAILS), (false, some FETCH_STATE_OVERVIEW)]
        detailsSample).fetch_state ≠ 0) :=
  ⟨(C2_fetch_state_monotone_amended lims0
      [(false, some FETCH_STATE_DETAILS), (false, some FETCH_STATE_OVERVIEW)] detailsSample).1
      (by decide),
   (C2_fetch_state_monotone_amended lims0
      [(false, some FETCH_STATE_DETAILS), (false, some FETCH_STATE_OVERVIEW)] detailsSample).2
      (by decide)⟩

/-- Claim C3 (confirmed): for a valid non-empty required mask, `Entity.get`
is a no-op with zero Document Store calls when `fetch_state & required != 0`
and `force` is unset; otherwise it performs exactly one GET of the entity's
canonical URI, assigns the returned document, and sets
`fetch_state = DETAILS`. -/
theorem C3_entity_get_contract (l : Lims) (e : Entity) (u : String) (force : Bool) (req : Nat)
    (h1 : 0 < req) (h2 : req ≤ FETCH_STATE_OVERVIEW_OR_DETAILS)
    (hu : e.uri = some u) (hs : strContainsChar u ':' = true) :
    Entity.get l force (some req) e =
      if e.fetch_state &&& req ≠ 0 ∧ force = false then (.ok (), e, [])
      else (.ok (), { e with root := some (l.store u), fetch_state := FETCH_STATE_DETAILS },
            [some u]) := by
  simp only [Entity.get]
  rw [if_pos (⟨h1, h2⟩ : FETCH_STATE_NONE < req ∧ req ≤ FETCH_STATE_OVERVIEW_OR_DETAILS)]
  by_cases hb : e.fetch_state &&& req ≠ 0
  · cases force with
    | false =>
      rw [if_pos (show ¬false = true ∧ e.fetch_state &&& req ≠ 0 from ⟨by simp, hb⟩)]
      rw [if_pos (show e.fetch_state &&& req ≠ 0 ∧ false = false from ⟨hb, rfl⟩)]
    | true =>
      rw [if_neg (show ¬(¬true = true ∧ e.fetch_state &&& req ≠ 0) by simp)]
      rw [if_neg (show ¬(e.fetch_state &&& req ≠ 0 ∧ true = false) by simp)]
      rw [hu]
      simp only [Lims.get, requestsUrl, List.isEmpty_nil, if_true, hs]
  · rw [if_neg (show ¬(¬force = true ∧ e.fetch_state &&& req ≠ 0) from fun hc => hb hc.2)]
    rw [if_neg (show ¬(e.fetch_state &&& req ≠ 0 ∧ force = false) from fun hc => hb hc.1)]
    rw [hu]
    simp only [Lims.get, requestsUrl, List.isEmpty_nil, if_true, hs]

/-- Witness for claim C3: an OVERVIEW-state lab entity read with the
`OVERVIEW_OR_DETAILS` mask is a no-op; the same entity read with the
`DETAILS` mask performs the single fetch and is promoted. -/
theorem C3_entity_get_contract_witness :
    (Entity.get lims0 false (some FETCH_STATE_OVERVIEW_OR_DETAILS) overviewWorkflow =
      if overviewWorkflow.fetch_state &&& FETCH_STATE_OVERVIEW_OR_DETAILS ≠ 0 ∧ false = false
      then (.ok (), overviewWorkflow, [])
      else (.ok (), { overviewWorkflow with
                        root := some (lims0.store "http://somewhere/api/v2/configuration/workflows/51"),
                        fetch_state := FETCH_STATE_DETAILS },
            [some "http://somewhere/api/v2/configuration/workflows/51"])) ∧
    (Entity.get lims0 false (some FETCH_STATE_DETAILS) overviewWorkflow =
      if overviewWorkflow.fetch_state &&& FETCH_STATE_DETAILS ≠ 0 ∧ false = false
      then (.ok (), overviewWorkflow, [])
      else (.ok (), { overviewWorkflow with
                        root := some (lims0.store "http://somewhere/api/v2/configuration/workflows/51"),
                        fetch_state := FETCH_STATE_DETAILS },
            [some "http://somewhere/api/v2/configuration/workflows/51"])) :=
  ⟨C3_entity_get_contract lims0 overviewWorkflow
      "http://somewhere/api/v2/configuration/workflows/51" false FETCH_STATE_OVERVIEW_OR_DETAILS
      (by decide) (by decide) rfl (by decide),
   C3_entity_get_contract lims0 overviewWorkflow
      "http://somewhere/api/v2/configuration/workflows/51" false FETCH_STATE_DETAILS
      (by decide) (by decide) rfl (by decide)⟩

/-- Claim C4 (confirmed): with a bag containing the binding's field and no
loaded document, a read returns the bag's raw value with zero Document Store
calls; once the document is loaded (and the fetch state satisfied), reads
decode from the document — regardless of what the bag still contains — with
zero further calls. -/
theorem C4_bag_precedence (l : Lims) (tag : String) (req : Nat) (e : Entity) :
    (∀ bg raw, e.root = none → e.bag = some bg → assocGet bg tag = some raw →
      stringDescriptorGet l tag req e = (.ok (some raw), e, [])) ∧
    (∀ doc, e.root = some doc → 0 < req → req ≤ FETCH_STATE_OVERVIEW_OR_DETAILS →
      e.fetch_state &&& req ≠ 0 →
      stringDescriptorGet l tag req e = (.ok (findText doc tag), e, [])) := by
  constructor
  · intro bg raw hroot hbag hget
    have hav : isAvailableInBag tag e = true := by
      rw [isAvailableInBag, hbag]
      simp [hroot, hget]
    simp only [stringDescriptorGet, hav, if_true, hbag, hget]
  · intro doc hroot h1 h2 hfs
    have hav : isAvailableInBag tag e = false := by
      rw [isAvailableInBag]
      cases hbg : e.bag with
      | none => rfl
      | some bg => simp [hroot]
    simp only [stringDescriptorGet, hav, Bool.false_eq_true, if_false]
    simp only [Entity.get]
    rw [if_pos (⟨h1, h2⟩ : FETCH_STATE_NONE < req ∧ req ≤ FETCH_STATE_OVERVIEW_OR_DETAILS)]
    rw [if_pos (show ¬false = true ∧ e.fetch_state &&& req ≠ 0 from ⟨by simp, hfs⟩)]
    show (match e.root with
          | none => (Except.error "AttributeError: 'NoneType' object has no attribute 'find'",
                     e, ([] : List (Option String)))
          | some doc => (Except.ok (findText doc tag), e, [])) =
         (.ok (findText doc tag), e, [])
    rw [hroot]

/-- Witness for claim C4: the overview-hydrated stage answers `status` from
its bag without any call; the loaded stage answers `name` from its document
("DocName") even though its bag still holds the stale "BagName". -/
theorem C4_bag_precedence_witness :
    stringDescriptorGet lims0 "status" FETCH_STATE_OVERVIEW_OR_DETAILS bagStage =
      (.ok (some "COMPLETE"), bagStage, []) ∧
    stringDescriptorGet lims0 "name" FETCH_STATE_OVERVIEW_OR_DETAILS loadedStage =
      (.ok (some "DocName"), loadedStage, []) :=
  ⟨(C4_bag_precedence lims0 "status" FETCH_STATE_OVERVIEW_OR_DETAILS bagStage).1
      [("name", "Stage 1"), ("status", "COMPLETE")] "COMPLETE" rfl rfl rfl,
   (C4_bag_precedence lims0 "name" FETCH_STATE_OVERVIEW_OR_DETAILS loadedStage).2
      (Elem.mk "wkfcnf:stage" [] none [Elem.mk "name" [] (some "DocName") []])
      rfl (by decide) (by decide) (by decide)⟩

/-- Claim C6 (confirmed): on any dictionary, assigning a string to an
existing Numeric-tagged field raises the type error naming `int or float`,
and assigning the integer 1 to an existing Boolean-tagged field raises the
type error naming `bool`. -/
theorem C6_udf_type_enforcement (d : UdfDictionary) (key : String) :
    (∀ i f s, findFieldIdx d.elems key = some (i, f) → pyLower f.vtype = "numeric" →
      (d.setitem key (.vStr s)).1 = .error "Numeric UDF requires int or float value") ∧
    (∀ i f, findFieldIdx d.elems key = some (i, f) → pyLower f.vtype = "boolean" →
      (d.setitem key (.vInt 1)).1 = .error "Boolean UDF requires bool value") := by
  constructor
  · intro i f s hf ht
    have hval : validateSerialize (pyLower f.vtype) (.vStr s) =
        .error "Numeric UDF requires int or float value" := by
      rw [ht]
      rfl
    simp only [UdfDictionary.setitem, hf, hval]
  · intro i f hf ht
    have hval : validateSerialize (pyLower f.vtype) (.vInt 1) =
        .error "Boolean UDF requires bool value" := by
      rw [ht]
      rfl
    simp only [UdfDictionary.setitem, hf, hval]

/-- Witness for claim C6: the fixture dictionary with a Numeric field `num`
and a Boolean field `flag` raises both errors. -/
theorem C6_udf_type_enforcement_witness :
    (c6dict.setitem "num" (.vStr "a string")).1 =
      .error "Numeric UDF requires int or float value" ∧
    (c6dict.setitem "flag" (.vInt 1)).1 = .error "Boolean UDF requires bool value" :=
  ⟨(C6_udf_type_enforcement c6dict "num").1 0
      { name := "num", vtype := "Numeric", text := some "42" } "a string" rfl rfl,
   (C6_udf_type_enforcement c6dict "flag").2 1
      { name := "flag", vtype := "Boolean", text := some "true" } rfl rfl⟩

/-- Claim C8 (the code violates it at `get_sample_number`): over a mocked
two-page listing filtered by `name=container`, `_get_instances` requests
page 2 at exactly the literal next-page URI, but `get_sample_number` passes
the original params again, so its page-2 request URL carries the duplicated
`name=container` parameter instead of being the literal next-page URI. -/
theorem C8_pagination_parameter_resubmission :
    Lims.getSampleNumber pagingLims [("name", "container")] 5 =
      .ok (2, [some samplesFirstUrl, some samplesResubmitUrl]) ∧
    samplesResubmitUrl = samplesNextUri ++ "&name=container" ∧
    samplesResubmitUrl ≠ samplesNextUri ∧
    Lims.getInstances pagingLims "containers" "container" [("name", "container")] 5 =
      .ok (["http://somewhere/api/v2/containers/C1", "http://somewhere/api/v2/containers/C2"],
           [some containersFirstUrl, some containersNextUri]) :=
  ⟨rfl, by decide, by decide, rfl⟩

/-- Claim C9, counterexample: advancing a detached `Step` (no server-assigned
URI) does not fail an explicit precondition check — it formats the literal
malformed URI `"None/advance"`, hands it to the transport layer, and only
the transport's URL validation rejects it (no scheme). -/
theorem C9_counterexample :
    (Entity.advance lims0 detachedStep).2.2 = [some "None/advance"] ∧
    strContainsChar "None/advance" ':' = false ∧
    (Entity.advance lims0 detachedStep).1 =
      .error "MissingSchema: Invalid URL None/advance" :=
  ⟨rfl, by decide, rfl⟩

/-- Claim C9 as amended: on a detached entity every URI-dependent operation
raises an error and none silently succeeds — reading the id raises from
`urlsplit(None)`, `get` and `put` raise the transport's `MissingSchema`
without the core building any URL string (the log records `none`), but
`Step.advance` first builds and submits the malformed literal
`"None/advance"` (see the counterexample); none of them performs a
dedicated precondition/identity check. -/
theorem C9_detached_ops_error (l : Lims) (e : Entity)
    (hu : e.uri = none) (hf : e.fetch_state = 0) :
    Entity.idOf e = .error "AttributeError: urlsplit(None)" ∧
    Entity.get l false (some FETCH_STATE_OVERVIEW_OR_DETAILS) e =
      (.error "MissingSchema: Invalid URL None", e, [none]) ∧
    (∀ r, e.root = some r →
      Entity.put l e = (.error "MissingSchema: Invalid URL None", [none])) ∧
    (e.root = none →
      Entity.put l e = (.error "AttributeError: cannot serialize ElementTree(None)", [])) ∧
    (∀ r, e.root = some r →
      (Entity.advance l e).1 = .error "MissingSchema: Invalid URL None/advance" ∧
      (Entity.advance l e).2.2 = [some "None/advance"]) := by
  refine ⟨?_, ?_, ?_, ?_, ?_⟩
  · rw [Entity.idOf, hu]
  · simp only [Entity.get]
    rw [if_pos (by decide : FETCH_STATE_NONE < FETCH_STATE_OVERVIEW_OR_DETAILS ∧
          FETCH_STATE_OVERVIEW_OR_DETAILS ≤ FETCH_STATE_OVERVIEW_OR_DETAILS)]
    rw [if_neg (show ¬(¬false = true ∧ e.fetch_state &&& FETCH_STATE_OVERVIEW_OR_DETAILS ≠ 0) by
          simp [hf])]
    rw [hu]
    rfl
  · intro r hroot
    rw [Entity.put, hroot]
    show (match l.submit e.uri "<document>" with
          | (.ok _, log) => ((.ok () : Except String Unit), log)
          | (.error m, log) => (.error m, log)) =
         (.error "MissingSchema: Invalid URL None", [none])
    rw [hu]
    rfl
  · intro hroot
    rw [Entity.put, hroot]
    rfl
  · intro r hroot
    constructor
    · rw [Entity.advance, hu, hroot]
      rfl
    · rw [Entity.advance, hu, hroot]
      rfl

/-- Witness for the amended claim C9 at the detached step fixture. -/
theorem C9_detached_ops_error_witness :
    Entity.idOf detachedStep = .error "AttributeError: urlsplit(None)" ∧
    Entity.get lims0 false (some FETCH_STATE_OVERVIEW_OR_DETAILS) detachedStep =
      (.error "MissingSchema: Invalid URL None", detachedStep, [none]) ∧
    Entity.put lims0 detachedStep = (.error "MissingSchema: Invalid URL None", [none]) :=
  have h := C9_detached_ops_error lims0 detachedStep rfl rfl
  ⟨h.1, h.2.1, h.2.2.1 (Elem.mk "stp:step" [] none []) rfl⟩

theorem setitem_existing_get (d : UdfDictionary) (key : String) (v : PyVal)
    (i : Nat) (f : UdfField) (text : String)
    (hf : findFieldIdx d.elems key = some (i, f))
    (htext : validateSerialize (pyLower f.vtype) v = .ok text) :
    (d.setitem key v).1 = .ok () ∧ (d.setitem key v).2.get key .vNone = v := by
  refine ⟨?_, ?_⟩
  · simp only [UdfDictionary.setitem, hf, htext]
  · simp only [UdfDictionary.setitem, hf, htext, UdfDictionary.get]
    show (assocGet (assocSet d.lookup key v) key).getD PyVal.vNone = v
    rw [assocGet_assocSet]
    rfl

theorem setitem_new_get (d : UdfDictionary) (key : String) (v : PyVal) (vt text : String)
    (hf : findFieldIdx d.elems key = none)
    (hit : inferType v = .ok (vt, text)) :
    (d.setitem key v).1 = .ok () ∧
    (d.setitem key v).2.get key .vNone = parseUdfText vt (some text) := by
  refine ⟨?_, ?_⟩
  · simp only [UdfDictionary.setitem, hf, hit]
  · simp only [UdfDictionary.setitem, hf, hit, UdfDictionary.get]
    have happ := prepareLookup_append_single d.elems
      { name := key, vtype := vt, text := some text }
    rw [happ]
    show (assocGet (assocSet (prepareLookup d.elems) key (parseUdfText vt (some text))) key).getD
        PyVal.vNone = parseUdfText vt (some text)
    rw [assocGet_assocSet]
    rfl

theorem parseUdfText_plain_text (t s : String) (hs : ¬(s = ""))
    (h1 : ¬(pyLower t = "numeric")) (h2 : ¬(pyLower t = "boolean"))
    (h3 : ¬(pyLower t = "date")) :
    parseUdfText t (some s) = .vStr s := by
  simp only [parseUdfText]
  rw [if_neg hs, if_neg h1, if_neg h2, if_neg h3]

theorem parseUdfText_numeric_int (n : Int) :
    parseUdfText "Numeric" (some (pyStrInt n)) = .vInt n := by
  simp only [parseUdfText]
  rw [if_neg (pyStrInt_ne_empty n), if_pos (show pyLower "Numeric" = "numeric" by decide),
      pyParseInt_pyStrInt n]

theorem parseUdfText_numeric_float (r : String) (hr : ¬(r = "")) (hp : pyParseInt r = none) :
    parseUdfText "Numeric" (some r) = .vFloat r := by
  simp only [parseUdfText]
  rw [if_neg hr, if_pos (show pyLower "Numeric" = "numeric" by decide), hp]

theorem parseUdfText_date (y m dd : Nat) (h : pyDateValid y m dd = true) :
    parseUdfText "Date" (some (pyStrDate y m dd)) = .vDate y m dd := by
  simp only [parseUdfText]
  rw [if_neg (pyStrDate_ne_empty y m dd),
      if_neg (show ¬(pyLower "Date" = "numeric") by decide),
      if_neg (show ¬(pyLower "Date" = "boolean") by decide),
      if_pos (show pyLower "Date" = "date" by decide),
      pyStrptimeDate_pyStrDate y m dd h]

/-- Claim C5, counterexample: on an empty dictionary, `set("a", "")` creates
a new String entry whose empty text decodes back to `None`: `get("a")`
returns `None`, not the empty string that was set — the round trip fails for
the empty string. -/
theorem C5_counterexample :
    (c5empty.setitem "a" (.vStr "")).1 = .ok () ∧
    (c5empty.setitem "a" (.vStr "")).2.get "a" .vNone = .vNone ∧
    PyVal.vNone ≠ PyVal.vStr "" :=
  ⟨rfl, rfl, by decide⟩

/-- Claim C5 as amended: `set(name, value)` followed by `get(name)` returns
`value` (a) for every existing entry whose declared tag matches the value's
type — the raw value is stored directly in the lookup — and (b) for every
new entry created from a nonempty string, an int, a float (whose repr text
does not re-parse as an int), a bool, or a constructible date; the one
exception, recorded by the counterexample, is a new entry created from the
empty string, which reads back as `None`. -/
theorem C5_udf_roundtrip_amended (d : UdfDictionary) (key : String) (v : PyVal) :
    (∀ i f, findFieldIdx d.elems key = some (i, f) → tagMatches f.vtype v →
      (d.setitem key v).1 = .ok () ∧ (d.setitem key v).2.get key .vNone = v) ∧
    (findFieldIdx d.elems key = none → newEntryOk v →
      (d.setitem key v).1 = .ok () ∧ (d.setitem key v).2.get key .vNone = v) := by
  constructor
  · intro i f hf hm
    have hok : ∃ text, validateSerialize (pyLower f.vtype) v = .ok text := by
      cases v with
      | vNone => exact hm.elim
      | vStr s =>
        rcases hm with h | h | h | h
        · exact ⟨s, by rw [h]; rfl⟩
        · exact ⟨s, by rw [h]; rfl⟩
        · exact ⟨s, by rw [h]; rfl⟩
        · exact ⟨s, by rw [h]; rfl⟩
      | vInt n => exact ⟨pyStrInt n, by rw [hm]; rfl⟩
      | vFloat r => exact ⟨r, by rw [hm]; rfl⟩
      | vBool b =>
        exact ⟨if (PyVal.vBool b) = (PyVal.vBool true) then "true" else "false", by rw [hm]; rfl⟩
      | vDate y m dd => exact ⟨pyStrDate y m dd, by rw [hm]; rfl⟩
    obtain ⟨text, htext⟩ := hok
    exact setitem_existing_get d key v i f text hf htext
  · intro hf hok
    cases v with
    | vNone => exact hok.elim
    | vStr s =>
      have hs : ¬(s = "") := hok
      have hit : inferType (.vStr s) =
          .ok ((if strContainsChar s '\n' then "Text" else "String"), s) := rfl
      by_cases hnl : strContainsChar s '\n' = true
      · have hit2 : inferType (.vStr s) = .ok ("Text", s) := by rw [hit, if_pos hnl]
        obtain ⟨h1, h2⟩ := setitem_new_get d key (.vStr s) "Text" s hf hit2
        refine ⟨h1, ?_⟩
        rw [h2]
        exact parseUdfText_plain_text "Text" s hs (by decide) (by decide) (by decide)
      · have hit2 : inferType (.vStr s) = .ok ("String", s) := by rw [hit, if_neg hnl]
        obtain ⟨h1, h2⟩ := setitem_new_get d key (.vStr s) "String" s hf hit2
        refine ⟨h1, ?_⟩
        rw [h2]
        exact parseUdfText_plain_text "String" s hs (by decide) (by decide) (by decide)
    | vInt n =>
      have hit : inferType (.vInt n) = .ok ("Numeric", pyStrInt n) := rfl
      obtain ⟨h1, h2⟩ := setitem_new_get d key (.vInt n) "Numeric" (pyStrInt n) hf hit
      refine ⟨h1, ?_⟩
      rw [h2]
      exact parseUdfText_numeric_int n
    | vFloat r =>
      obtain ⟨hr, hp⟩ := hok
      have hit : inferType (.vFloat r) = .ok ("Numeric", r) := rfl
      obtain ⟨h1, h2⟩ := setitem_new_get d key (.vFloat r) "Numeric" r hf hit
      refine ⟨h1, ?_⟩
      rw [h2]
      exact parseUdfText_numeric_float r hr hp
    | vBool b =>
      cases b with
      | true =>
        have hit : inferType (.vBool true) = .ok ("Boolean", "true") := rfl
        obtain ⟨h1, h2⟩ := setitem_new_get d key (.vBool true) "Boolean" "true" hf hit
        refine ⟨h1, ?_⟩
        rw [h2]
        decide
      | false =>
        have hit : inferType (.vBool false) = .ok ("Boolean", "false") := rfl
        obtain ⟨h1, h2⟩ := setitem_new_get d key (.vBool false) "Boolean" "false" hf hit
        refine ⟨h1, ?_⟩
        rw [h2]
        decide
    | vDate y m dd =>
      have hv : pyDateValid y m dd = true := hok
      have hit : inferType (.vDate y m dd) = .ok ("Date", pyStrDate y m dd) := rfl
      obtain ⟨h1, h2⟩ := setitem_new_get d key (.vDate y m dd) "Date" (pyStrDate y m dd) hf hit
      refine ⟨h1, ?_⟩
      rw [h2]
      exact parseUdfText_date y m dd hv

/-- Witness for the amended claim C5: an existing Numeric field round-trips
an int exactly, and a fresh String entry round-trips a nonempty string. -/
theorem C5_udf_roundtrip_amended_witness :
    ((c5dict.setitem "num" (.vInt 5)).1 = .ok () ∧
      (c5dict.setitem "num" (.vInt 5)).2.get "num" .vNone = .vInt 5) ∧
    ((c5dict.setitem "fresh" (.vStr "hello")).1 = .ok () ∧
      (c5dict.setitem "fresh" (.vStr "hello")).2.get "fresh" .vNone = .vStr "hello") :=
  ⟨(C5_udf_roundtrip_amended c5dict "num" (.vInt 5)).1 0
      { name := "num", vtype := "Numeric", text := some "42" } rfl (by decide),
   (C5_udf_roundtrip_amended c5dict "fresh" (.vStr "hello")).2 rfl (by decide)⟩
